import Mathlib

/-!
Shallow embedding of the carbon sequestration estimation engine of
`backend/app/services/carbon_service.py` (class `CarbonService`), together
with proofs of the specified properties.

Modelling conventions:
- Python floats are modelled by `ℝ`; `np.power` on a positive base is
  `Real.rpow`.  Real arithmetic has no NaN/Inf, so the source
  `np.isnan`/`np.isinf` rejection branch is unreachable in the model and
  the simulation is a total function (this is noted where relevant).
- `np.random.normal(mean, std, n)` is modelled by `mean + std * z k` for an
  explicit stream `z : ℕ → ℝ` of standard-normal draws: the global numpy
  random state is threaded through the embedding as an explicit draw
  stream, consumed in exactly the order the source consumes it.
- Python dict inputs for the LULC classification are modelled by the small
  `PyVal` type, with Python truthiness made explicit.
- `round(x, n)` is modelled by rounding `x * 10^n` to the nearest integer
  (`pyRound`); the tie-breaking convention at exact half-way points
  (Python rounds half to even) is immaterial to every property proved here.
- Dates are modelled by `ℤ` ordinals; `date.isoformat()` serialization is
  presentation only and the report stores the ordinal.
-/

/-- Exception taxonomy of `carbon_service.py` (the four module-level
exception classes), with the exception message as payload. -/
inductive CarbonError where
  | calculationError (msg : String)
  | allometricParameterError (msg : String)
  | lulcIntegrationError (msg : String)
  | monteCarloSimulationError (msg : String)
deriving DecidableEq, Repr

/-- One allometric parameter set: the four numeric fields the source keeps
in a params dict (`a_mean`, `a_std`, `b_mean`, `b_std`).  Key presence and
numeric type are enforced structurally by this type; the source runtime
checks for them are therefore vacuous in the model (see
`_validate_allometric_params`). -/
structure AlloParams where
  a_mean : ℝ
  a_std : ℝ
  b_mean : ℝ
  b_std : ℝ
deriving Inhabited

/-- Constant `CARBON_FRACTION = 0.47`. -/
noncomputable def CARBON_FRACTION : ℝ := 0.47

/-- Constant `CO2_TO_CARBON_RATIO = 44 / 12`. -/
noncomputable def CO2_TO_CARBON_RATIO : ℝ := 44 / 12

/-- Constant `MONTE_CARLO_ITERATIONS = 10000`. -/
def MONTE_CARLO_ITERATIONS : ℕ := 10000

/-- Constant `MIN_CONFIDENCE_SCORE = 0`. -/
noncomputable def MIN_CONFIDENCE_SCORE : ℝ := 0

/-- Constant `MAX_CONFIDENCE_SCORE = 100`. -/
noncomputable def MAX_CONFIDENCE_SCORE : ℝ := 100

/-- Constant `DEFAULT_NDVI_STD = 0.05`. -/
noncomputable def DEFAULT_NDVI_STD : ℝ := 0.05

/-- Constant `TIER1_AGB_COEFFICIENT_A = 142.9`. -/
noncomputable def TIER1_AGB_COEFFICIENT_A : ℝ := 142.9

/-- Constant `TIER1_AGB_EXPONENT_B = 1.60`. -/
noncomputable def TIER1_AGB_EXPONENT_B : ℝ := 1.60

/-- Constant `TIER1_AGB_STD_A = 5.2`. -/
noncomputable def TIER1_AGB_STD_A : ℝ := 5.2

/-- Constant `TIER1_AGB_STD_B = 0.08`. -/
noncomputable def TIER1_AGB_STD_B : ℝ := 0.08

/-- The Tier 1 fallback parameter dict built inline at both fallback sites
of `estimate_carbon_sequestration` (lines 254-259 and 264-269). -/
noncomputable def tier1Params : AlloParams :=
  { a_mean := TIER1_AGB_COEFFICIENT_A
    a_std := TIER1_AGB_STD_A
    b_mean := TIER1_AGB_EXPONENT_B
    b_std := TIER1_AGB_STD_B }

/-- Catalog `ALLOMETRIC_PARAMS`: the static Tier 2 catalog keyed by LULC class id
(0..8); `none` for ids outside the catalog (dict `.get` miss). -/
noncomputable def ALLOMETRIC_PARAMS (class_id : ℕ) : Option AlloParams :=
  match class_id with
  | 0 => some ⟨0.0, 0.0, 0.0, 0.0⟩        -- Water - No biomass
  | 1 => some ⟨185.5, 15.2, 1.75, 0.12⟩   -- Trees - Tropical forest
  | 2 => some ⟨68.2, 6.1, 1.30, 0.08⟩     -- Grass - Grassland
  | 3 => some ⟨92.4, 8.3, 1.40, 0.10⟩     -- Flooded Vegetation - Wetland
  | 4 => some ⟨95.3, 8.5, 1.45, 0.10⟩     -- Crops - Agricultural land
  | 5 => some ⟨78.6, 7.2, 1.35, 0.09⟩     -- Shrub/Scrub - Shrubland
  | 6 => some ⟨15.2, 3.1, 1.05, 0.07⟩     -- Built Area - Urban
  | 7 => some ⟨25.4, 4.2, 1.15, 0.08⟩     -- Bare Ground - Sparse
  | 8 => some ⟨0.0, 0.0, 0.0, 0.0⟩        -- Snow/Ice - No biomass
  | _ => none

/-- Table `LULC_CLASS_NAME_TO_ID`: class name to class id; `none` on a dict
`.get` miss (unknown name). -/
def LULC_CLASS_NAME_TO_ID (name : String) : Option ℕ :=
  if name = "Water" then some 0
  else if name = "Trees" then some 1
  else if name = "Grass" then some 2
  else if name = "Flooded Vegetation" then some 3
  else if name = "Crops" then some 4
  else if name = "Shrub/Scrub" then some 5
  else if name = "Built Area" then some 6
  else if name = "Bare Ground" then some 7
  else if name = "Snow/Ice" then some 8
  else none

/-- A sample drawn from `np.random.normal(mean, std)`: `mean + std * z`
for a standard-normal draw `z`. -/
noncomputable def normalSample (mean std z : ℝ) : ℝ := mean + std * z

/-- Embeds `np.clip(x, lo, hi)` (scalar): `min hi (max lo x)`. -/
noncomputable def np_clip (x lo hi : ℝ) : ℝ := min hi (max lo x)

/-- Three-list `zipWith`, mirroring elementwise numpy operations over three
same-length arrays. -/
def zipWith3 (f : α → β → γ → δ) : List α → List β → List γ → List δ
  | a :: as, b :: bs, c :: cs => f a b c :: zipWith3 f as bs cs
  | _, _, _ => []

/-- Embeds `CarbonService._run_monte_carlo_simulation` (lines 464-523): draws
`n_iterations` joint samples of the coefficient `a`, the exponent `b` and
the NDVI value, clips NDVI samples to `[-1, 1]`, evaluates
`np.where(ndvi > 0, a * ndvi ** b, 0.0)` elementwise, and clips the
results to `[0, ∞)`.  The final NaN/Inf rejection of the source cannot fire in
the real-number model, so the function returns the sample array directly.
The standard-normal draws for the three arrays come from the explicit
streams `za`, `zb`, `zn`. -/
noncomputable def _run_monte_carlo_simulation (ndvi_value ndvi_std : ℝ)
    (allometric_params : AlloParams) (n_iterations : ℕ)
    (za zb zn : ℕ → ℝ) : List ℝ :=
  let a_samples := (List.range n_iterations).map fun k =>
    normalSample allometric_params.a_mean allometric_params.a_std (za k)
  let b_samples := (List.range n_iterations).map fun k =>
    normalSample allometric_params.b_mean allometric_params.b_std (zb k)
  let ndvi_samples := (List.range n_iterations).map fun k =>
    normalSample ndvi_value ndvi_std (zn k)
  let ndvi_clipped := ndvi_samples.map fun v => np_clip v (-1) 1
  let agb_results := zipWith3
    (fun a b v => if 0 < v then a * v ^ b else (0 : ℝ))
    a_samples b_samples ndvi_clipped
  -- np.clip(agb_results, 0.0, np.inf)
  agb_results.map fun x => max 0 x

/-- Ascending `np.sort`-style sort of a sample array (used inside
`np.percentile`). -/
noncomputable def sortSamples (xs : List ℝ) : List ℝ :=
  xs.insertionSort (· ≤ ·)

/-- Embeds `np.percentile(xs, q)` with the default linear interpolation method:
on the sorted array `s` of length `n`, the virtual index is
`h = (n - 1) * q / 100`; the result interpolates between `s[⌊h⌋]` and the
next element.  Empty input (never reached from the service) yields 0. -/
noncomputable def percentile (xs : List ℝ) (q : ℚ) : ℝ :=
  let s := sortSamples xs
  let n := s.length
  if n = 0 then 0
  else
    let h : ℚ := (n - 1 : ℚ) * q / 100
    let i : ℕ := (⌊h⌋).toNat
    let frac : ℚ := h - (⌊h⌋ : ℚ)
    let lo := s.getD i 0
    let hi := s.getD (min (i + 1) (n - 1)) 0
    lo + (frac : ℝ) * (hi - lo)

/-- Embeds `np.mean` (0 on empty input, never reached from the service). -/
noncomputable def npMean (xs : List ℝ) : ℝ := xs.sum / xs.length

/-- Embeds `np.std` (population standard deviation, `ddof = 0`). -/
noncomputable def npStd (xs : List ℝ) : ℝ :=
  Real.sqrt ((xs.map fun x => (x - npMean xs) ^ 2).sum / xs.length)

/-- The dict returned by `_calculate_confidence_metrics`. -/
structure ConfidenceMetrics where
  median : ℝ
  ci_lower : ℝ
  ci_upper : ℝ
  std_dev : ℝ
  confidence_score : ℝ
deriving Inhabited

/-- Embeds `CarbonService._calculate_confidence_metrics` (lines 525-569): median,
2.5th/97.5th percentiles (`CONFIDENCE_INTERVAL_PERCENTILES`), population
standard deviation, and the confidence score
`max(0, min(100, 100 * (1 - std/median)))` when `median > 0`, else the
maximal score 100. -/
noncomputable def _calculate_confidence_metrics (mc_results : List ℝ) :
    ConfidenceMetrics :=
  let median := percentile mc_results 50
  let ci_lower := percentile mc_results (5 / 2)
  let ci_upper := percentile mc_results (195 / 2)
  let std_dev := npStd mc_results
  let confidence_score :=
    if 0 < median then
      max MIN_CONFIDENCE_SCORE
        (min MAX_CONFIDENCE_SCORE (100 * (1 - std_dev / median)))
    else MAX_CONFIDENCE_SCORE
  { median := median, ci_lower := ci_lower, ci_upper := ci_upper
    std_dev := std_dev, confidence_score := confidence_score }

/-- A Python value as it can reach the `lulc_data` argument: `None`, a
dict with string keys, a string, or any other (truthy) object. -/
inductive PyVal where
  | none
  | dict (entries : List (String × PyVal))
  | str (s : String)
  | other

/-- Python truthiness for `PyVal`: `None` is falsy, a dict is truthy iff
non-empty, a string is truthy iff non-empty, other objects are truthy. -/
def pyTruthy : PyVal → Bool
  | .none => false
  | .dict entries => !entries.isEmpty
  | .str s => !(s = "")
  | .other => true

/-- Embeds `d.get(key)` on a Python dict value: `none` when the value is not a
dict or the key is missing. -/
def pyGet (v : PyVal) (key : String) : Option PyVal :=
  match v with
  | .dict entries => entries.lookup key
  | _ => Option.none

/-- Embeds `CarbonService._validate_lulc_data` (lines 571-593): requires a dict
containing a `dominant_class` key whose value is a string naming a known
LULC class; raises `LULCIntegrationError` otherwise. -/
def _validate_lulc_data (lulc_data : PyVal) : Except CarbonError Unit :=
  match lulc_data with
  | .dict entries =>
    match entries.lookup "dominant_class" with
    | Option.none =>
      .error (.lulcIntegrationError "LULC data missing dominant_class key")
    | some dominant_class =>
      match dominant_class with
      | .str s =>
        if (LULC_CLASS_NAME_TO_ID s).isSome then .ok ()
        else .error (.lulcIntegrationError ("Unknown land use class: " ++ s))
      | _ => .error (.lulcIntegrationError "dominant_class must be a string")
  | _ => .error (.lulcIntegrationError "LULC data must be a dictionary")

/-- Embeds `CarbonService._select_allometric_params` (lines 426-462): looks up the
dominant class name, maps it to a class id and returns the catalog four numeric
fields of the entry; raises `LULCIntegrationError` when anything is
missing.  A non-string `dominant_class` value misses the string-keyed
name-to-id dict, so it surfaces as an unknown class. -/
noncomputable def _select_allometric_params (lulc_data : PyVal) :
    Except CarbonError (String × AlloParams) :=
  match pyGet lulc_data "dominant_class" with
  | Option.none => .error (.lulcIntegrationError "No dominant_class in LULC data")
  | some dc =>
    if pyTruthy dc = false then
      .error (.lulcIntegrationError "No dominant_class in LULC data")
    else
      match dc with
      | .str s =>
        match LULC_CLASS_NAME_TO_ID s with
        | Option.none => .error (.lulcIntegrationError "Unknown land use class")
        | some cid =>
          match ALLOMETRIC_PARAMS cid with
          | Option.none =>
            .error (.lulcIntegrationError "No parameters for class ID")
          | some params => .ok (s, params)
      | _ => .error (.lulcIntegrationError "Unknown land use class")

/-- The resolver logic inlined in `estimate_carbon_sequestration`
(lines 240-269): when `lulc_data` is truthy, validate and select; a
`LULCIntegrationError` from either step is caught and replaced by the
Tier 1 default parameters with `land_use_class` still `None`; a falsy
`lulc_data` goes straight to the Tier 1 defaults. -/
noncomputable def resolveParams (lulc_data : PyVal) :
    Option String × AlloParams :=
  if pyTruthy lulc_data then
    match _validate_lulc_data lulc_data with
    | .error _ => (Option.none, tier1Params)
    | .ok _ =>
      match _select_allometric_params lulc_data with
      | .error _ => (Option.none, tier1Params)
      | .ok pr => (some pr.1, pr.2)
  else (Option.none, tier1Params)

/-- Embeds `CarbonService._validate_allometric_params` (lines 595-621).  The key
presence and numeric-type checks of the source are enforced structurally
by `AlloParams`; the value checks (each field non-negative) are modelled
here.  The `a_std`-vs-`a_mean` ratio check only logs a warning. -/
noncomputable def _validate_allometric_params (params : AlloParams) :
    Except CarbonError Unit :=
  if params.a_mean < 0 then
    .error (.allometricParameterError "a_mean must be non-negative")
  else if params.a_std < 0 then
    .error (.allometricParameterError "a_std must be non-negative")
  else if params.b_mean < 0 then
    .error (.allometricParameterError "b_mean must be non-negative")
  else if params.b_std < 0 then
    .error (.allometricParameterError "b_std must be non-negative")
  else .ok ()

/-- One element of the `ndvi_data` request list: a dict with a `date`, an
`ndvi` value and an optional `ndvi_std`. -/
structure NdviPoint where
  date : String
  ndvi : ℝ
  ndvi_std : Option ℝ := Option.none
deriving Inhabited

/-- Embeds `round(x, ndigits)`: round `x * 10^ndigits` to the nearest integer and
scale back.  (Python rounds exact halves to even; the tie-breaking
convention is immaterial to the properties proved here.) -/
noncomputable def pyRound (ndigits : ℕ) (x : ℝ) : ℝ :=
  ((round (x * 10 ^ ndigits) : ℤ) : ℝ) / 10 ^ ndigits

/-- Python `min` over a nonempty list, 0 on empty input (never reached). -/
noncomputable def pyMin : List ℝ → ℝ
  | [] => 0
  | h :: t => t.foldl min h

/-- Python `max` over a nonempty list, 0 on empty input (never reached). -/
noncomputable def pyMax : List ℝ → ℝ
  | [] => 0
  | h :: t => t.foldl max h

/-- One entry of the returned `data_points` list (lines 316-329). -/
structure DataPoint where
  date : String
  ndvi : ℝ
  agb_tonnes_ha : ℝ
  agb_total_tonnes : ℝ
  carbon_tonnes_ha : ℝ
  carbon_total_tonnes : ℝ
  co2_tonnes_ha : ℝ
  co2_total_tonnes : ℝ
  confidence_score : ℝ
  ci_lower : ℝ
  ci_upper : ℝ
  std_dev : ℝ
deriving Inhabited

/-- The `statistics` dict of the report (lines 382-393). -/
structure Statistics where
  mean_agb_tonnes_ha : ℝ
  total_agb_tonnes : ℝ
  mean_carbon_tonnes_ha : ℝ
  total_carbon_tonnes : ℝ
  total_co2_tonnes : ℝ
  min_ndvi : ℝ
  max_ndvi : ℝ
  mean_ndvi : ℝ
  mean_confidence_score : ℝ
  overall_std_dev : ℝ
deriving Inhabited

/-- The `metadata` dict of the report (lines 394-410). -/
structure Metadata where
  model_version : String
  model_name : String
  methodology : String
  uncertainty_method : String
  land_use_class : Option String
  carbon_fraction : ℝ
  co2_conversion_factor : ℝ
  allometric_params : AlloParams
  monte_carlo_iterations : ℕ
  assumptions : List String
  references : List String
deriving Inhabited

/-- The dict returned by `estimate_carbon_sequestration` (lines 377-411).
Dates are kept as ordinals (`isoformat` is presentation only). -/
structure Report where
  start_date : ℤ
  end_date : ℤ
  area_ha : ℝ
  data_points : List DataPoint
  statistics : Statistics
  metadata : Metadata
deriving Inhabited

/-- Accumulators of the per-point loop: `data_points`, `agb_values`,
`carbon_values`, `confidence_scores`, `std_devs` (lines 275-279). -/
structure LoopAcc where
  points : List DataPoint
  agb_values : List ℝ
  carbon_values : List ℝ
  confidence_scores : List ℝ
  std_devs : List ℝ
deriving Inhabited

/-- Standard-normal draws for the `a_samples` array of the point at index
`i`: the source consumes the process RNG in array order, three arrays of
`MONTE_CARLO_ITERATIONS` draws per point. -/
def drawA (g : ℕ → ℝ) (i : ℕ) : ℕ → ℝ :=
  fun k => g (3 * MONTE_CARLO_ITERATIONS * i + k)

/-- Draws for the `b_samples` array of point `i`. -/
def drawB (g : ℕ → ℝ) (i : ℕ) : ℕ → ℝ :=
  fun k => g (3 * MONTE_CARLO_ITERATIONS * i + MONTE_CARLO_ITERATIONS + k)

/-- Draws for the `ndvi_samples` array of point `i`. -/
def drawN (g : ℕ → ℝ) (i : ℕ) : ℕ → ℝ :=
  fun k => g (3 * MONTE_CARLO_ITERATIONS * i + 2 * MONTE_CARLO_ITERATIONS + k)

/-- The Monte Carlo distribution the loop computes for a measurement `p`
(lines 292-298): NDVI uncertainty defaults to `DEFAULT_NDVI_STD` when the
measurement carries none. -/
noncomputable def pointMC (p : NdviPoint) (allometric_params : AlloParams)
    (za zb zn : ℕ → ℝ) : List ℝ :=
  _run_monte_carlo_simulation p.ndvi (p.ndvi_std.getD DEFAULT_NDVI_STD)
    allometric_params MONTE_CARLO_ITERATIONS za zb zn

/-- The values produced for one valid measurement (lines 303-335): the
summarized distribution, the median floored to be non-negative, the
carbon and CO2 conversions, the area scaling, the rounded output data
point, and the four unrounded values appended to the loop accumulators. -/
noncomputable def pointPayload (p : NdviPoint) (allometric_params : AlloParams)
    (area_ha : ℝ) (za zb zn : ℕ → ℝ) : DataPoint × ℝ × ℝ × ℝ × ℝ :=
  let cm := _calculate_confidence_metrics (pointMC p allometric_params za zb zn)
  let agb_tonnes_ha := max 0 cm.median
  let carbon_tonnes_ha := agb_tonnes_ha * CARBON_FRACTION
  let co2_tonnes_ha := carbon_tonnes_ha * CO2_TO_CARBON_RATIO
  let total_agb_tonnes := agb_tonnes_ha * area_ha
  let total_carbon_tonnes := carbon_tonnes_ha * area_ha
  let total_co2_tonnes := co2_tonnes_ha * area_ha
  (⟨p.date, pyRound 6 p.ndvi, pyRound 4 agb_tonnes_ha,
      pyRound 4 total_agb_tonnes, pyRound 4 carbon_tonnes_ha,
      pyRound 4 total_carbon_tonnes, pyRound 4 co2_tonnes_ha,
      pyRound 4 total_co2_tonnes, pyRound 1 cm.confidence_score,
      pyRound 4 cm.ci_lower, pyRound 4 cm.ci_upper, pyRound 4 cm.std_dev⟩,
    agb_tonnes_ha, carbon_tonnes_ha, cm.confidence_score, cm.std_dev)

/-- The body of the per-measurement loop (lines 281-335): validate the
NDVI range, then produce the values of the point. -/
noncomputable def processPoint (p : NdviPoint) (allometric_params : AlloParams)
    (area_ha : ℝ) (za zb zn : ℕ → ℝ) :
    Except CarbonError (DataPoint × ℝ × ℝ × ℝ × ℝ) :=
  if ¬ (-1 ≤ p.ndvi ∧ p.ndvi ≤ 1) then
    .error (.calculationError "Invalid NDVI value (must be -1 to 1)")
  else
    .ok (pointPayload p allometric_params area_ha za zb zn)

/-- The per-measurement loop (lines 281-342) over the remaining points,
where `i` is the index of the first remaining point.  The first component
counts the Monte Carlo simulations actually executed (one per point whose
NDVI range check passed before the loop aborted). -/
noncomputable def processPoints (allometric_params : AlloParams) (area_ha : ℝ)
    (g : ℕ → ℝ) : List NdviPoint → ℕ → ℕ × Except CarbonError LoopAcc
  | [], _ => (0, .ok ⟨[], [], [], [], []⟩)
  | p :: rest, i =>
    match processPoint p allometric_params area_ha (drawA g i) (drawB g i)
        (drawN g i) with
    | .error e => (0, .error e)
    | .ok (dp, agb, carbon, conf, sd) =>
      match processPoints allometric_params area_ha g rest (i + 1) with
      | (c, .error e) => (c + 1, .error e)
      | (c, .ok acc) =>
        (c + 1, .ok ⟨dp :: acc.points, agb :: acc.agb_values,
          carbon :: acc.carbon_values, conf :: acc.confidence_scores,
          sd :: acc.std_devs⟩)

/-- The five base assumption strings (lines 358-364, f-string values
resolved against the class constants). -/
def baseAssumptions : List String :=
  ["AGB = a * NDVI^b (Allometric equation)",
   "Carbon = AGB * 0.47 (IPCC conversion factor)",
   "CO2 equivalent = Carbon * 3.67",
   "Uncertainty quantification via Monte Carlo (10,000 iterations)",
   "95% Confidence intervals from percentiles (2.5%, 97.5%)"]

/-- The Tier 1 fallback assumption string inserted at position 0 when no
land-use class was resolved (line 373). -/
def tier1FallbackAssumption : String :=
  "Pan-tropical default parameters (IPCC Tier 1 fallback)"

/-- The `metadata` dict (lines 394-410): fixed model identifiers, the
resolved class (if any), conversion constants, the parameters in use, and
the assumption list with its Tier-dependent first entry (lines 366-375). -/
noncomputable def buildMetadata (lulc_data : PyVal)
    (land_use_class : Option String) (allometric_params : AlloParams) :
    Metadata :=
  let assumptions :=
    if pyTruthy lulc_data then
      match land_use_class with
      | some c =>
        ("Land-use-specific parameters for " ++ c ++ " (IPCC Tier 2)")
          :: baseAssumptions
      | Option.none => tier1FallbackAssumption :: baseAssumptions
    else tier1FallbackAssumption :: baseAssumptions
  { model_version := "v2.0"
    model_name := "IPCC Tier 2 with Land-Use-Specific Allometric Equations"
    methodology := "Monte Carlo Simulation (10,000 iterations)"
    uncertainty_method := "95% Confidence Intervals"
    land_use_class := land_use_class
    carbon_fraction := CARBON_FRACTION
    co2_conversion_factor := CO2_TO_CARBON_RATIO
    allometric_params := allometric_params
    monte_carlo_iterations := MONTE_CARLO_ITERATIONS
    assumptions := assumptions
    references :=
      ["Chave et al. (2014): Pan-tropical allometric equations",
       "IPCC (2006): Guidelines for National Greenhouse Gas Inventories",
       "IPCC (2019): Refinement to the 2006 Guidelines, Vol. 4"] }

/-- The aggregated `statistics` dict (lines 344-355 and 382-393). -/
noncomputable def buildStatistics (ndvi_data : List NdviPoint)
    (area_ha : ℝ) (acc : LoopAcc) : Statistics :=
  let mean_agb_ha := acc.agb_values.sum / (acc.agb_values.length : ℝ)
  let mean_carbon_ha := acc.carbon_values.sum / (acc.carbon_values.length : ℝ)
  let mean_agb_total := mean_agb_ha * area_ha
  let mean_carbon_total := mean_carbon_ha * area_ha
  let mean_co2_total := mean_carbon_total * CO2_TO_CARBON_RATIO
  let mean_confidence_score :=
    acc.confidence_scores.sum / (acc.confidence_scores.length : ℝ)
  let overall_std_dev := acc.std_devs.sum / (acc.std_devs.length : ℝ)
  { mean_agb_tonnes_ha := pyRound 4 mean_agb_ha
    total_agb_tonnes := pyRound 4 mean_agb_total
    mean_carbon_tonnes_ha := pyRound 4 mean_carbon_ha
    total_carbon_tonnes := pyRound 4 mean_carbon_total
    total_co2_tonnes := pyRound 4 mean_co2_total
    min_ndvi := pyRound 4 (pyMin (ndvi_data.map fun p => p.ndvi))
    max_ndvi := pyRound 4 (pyMax (ndvi_data.map fun p => p.ndvi))
    mean_ndvi := pyRound 4
      ((ndvi_data.map fun p => p.ndvi).sum / (ndvi_data.length : ℝ))
    mean_confidence_score := pyRound 1 mean_confidence_score
    overall_std_dev := pyRound 4 overall_std_dev }

/-- Embeds `CarbonService.estimate_carbon_sequestration` (lines 174-424),
instrumented with the number of Monte Carlo simulations executed (first
component): request validation in source order, land-cover resolution with
Tier 1 fallback, allometric parameter validation, the per-measurement
loop, and assembly of the final report. -/
noncomputable def estimateAux (ndvi_data : List NdviPoint) (area_ha : ℝ)
    (start_date end_date : ℤ) (lulc_data : PyVal) (g : ℕ → ℝ) :
    ℕ × Except CarbonError Report :=
  if ndvi_data.isEmpty then
    (0, .error (.calculationError "No NDVI data provided"))
  else if area_ha ≤ 0 then
    (0, .error (.calculationError "Area must be positive"))
  else if end_date < start_date then
    (0, .error (.calculationError "Invalid date range: end_date must be >= start_date"))
  else
    let resolved := resolveParams lulc_data
    let land_use_class := resolved.1
    let allometric_params := resolved.2
    match _validate_allometric_params allometric_params with
    | .error e => (0, .error e)
    | .ok _ =>
      match processPoints allometric_params area_ha g ndvi_data 0 with
      | (c, .error e) => (c, .error e)
      | (c, .ok acc) =>
        if acc.agb_values.isEmpty then
          (c, .error (.calculationError "No valid NDVI data for calculation"))
        else
          (c, .ok
            { start_date := start_date
              end_date := end_date
              area_ha := area_ha
              data_points := acc.points
              statistics := buildStatistics ndvi_data area_ha acc
              metadata := buildMetadata lulc_data land_use_class
                allometric_params })

/-- The public estimate operation: `estimateAux` without the
instrumentation counter. -/
noncomputable def estimate_carbon_sequestration (ndvi_data : List NdviPoint)
    (area_ha : ℝ) (start_date end_date : ℤ) (lulc_data : PyVal)
    (g : ℕ → ℝ) : Except CarbonError Report :=
  (estimateAux ndvi_data area_ha start_date end_date lulc_data g).2

/-- The report of a successful call, `none` on an exception. -/
noncomputable def reportOf (e : Except CarbonError Report) : Option Report :=
  match e with
  | .ok r => some r
  | .error _ => Option.none

/-- The metadata of a successful call, `none` on an exception. -/
noncomputable def reportMetadata (e : Except CarbonError Report) :
    Option Metadata :=
  (reportOf e).map fun r => r.metadata

/-- Whether a call succeeded. -/
noncomputable def callSucceeded (e : Except CarbonError Report) : Bool :=
  match e with
  | .ok _ => true
  | .error _ => false

/-- Whether a call raised `AllometricParameterError`. -/
noncomputable def raisedAllometricError (e : Except CarbonError Report) :
    Bool :=
  match e with
  | .error (.allometricParameterError _) => true
  | _ => false

theorem zipWith3_map_map_map (f : α → β) (g : α → γ) (h : α → ε)
    (F : β → γ → ε → δ) (l : List α) :
    zipWith3 F (l.map f) (l.map g) (l.map h)
      = l.map fun x => F (f x) (g x) (h x) := by
  induction l with
  | nil => rfl
  | cons a t ih => simp [zipWith3, ih]

/-- The simulation, fused into a single map over the iteration index. -/
theorem run_monte_carlo_simulation_eq_map (ndvi_value ndvi_std : ℝ)
    (p : AlloParams) (n : ℕ) (za zb zn : ℕ → ℝ) :
    _run_monte_carlo_simulation ndvi_value ndvi_std p n za zb zn
      = (List.range n).map fun k =>
          max 0 (if 0 < np_clip (normalSample ndvi_value ndvi_std (zn k)) (-1) 1
            then normalSample p.a_mean p.a_std (za k)
              * np_clip (normalSample ndvi_value ndvi_std (zn k)) (-1) 1
                ^ normalSample p.b_mean p.b_std (zb k)
            else 0) := by
  unfold _run_monte_carlo_simulation
  simp only [List.map_map, Function.comp]
  rw [zipWith3_map_map_map]
  simp [List.map_map, Function.comp]

/-! ## Helper lemmas -/

/-- The all-zero standard-normal draw stream, used for concrete instances. -/
noncomputable def zeroStream : ℕ → ℝ := fun _ => 0

/-- The NDVI range predicate checked inside the per-measurement loop
(line 286). -/
def ndviValid (p : NdviPoint) : Prop := -1 ≤ p.ndvi ∧ p.ndvi ≤ 1

theorem sim_length (ndvi_value ndvi_std : ℝ) (p : AlloParams) (n : ℕ)
    (za zb zn : ℕ → ℝ) :
    (_run_monte_carlo_simulation ndvi_value ndvi_std p n za zb zn).length
      = n := by
  rw [run_monte_carlo_simulation_eq_map]
  simp

theorem sim_mem_nonneg (ndvi_value ndvi_std : ℝ) (p : AlloParams) (n : ℕ)
    (za zb zn : ℕ → ℝ) :
    ∀ x ∈ _run_monte_carlo_simulation ndvi_value ndvi_std p n za zb zn,
      0 ≤ x := by
  rw [run_monte_carlo_simulation_eq_map]
  intro x hx
  obtain ⟨k, _, rfl⟩ := List.mem_map.1 hx
  exact le_max_left 0 _

theorem getD_nonneg {s : List ℝ} (h : ∀ x ∈ s, 0 ≤ x) (i : ℕ) :
    0 ≤ s.getD i 0 := by
  by_cases hi : i < s.length
  · rw [List.getD_eq_getElem s 0 hi]
    exact h _ (List.getElem_mem hi)
  · rw [List.getD_eq_default s 0 (le_of_not_lt hi)]

theorem sortSamples_mem {xs : List ℝ} {x : ℝ} :
    x ∈ sortSamples xs ↔ x ∈ xs := by
  unfold sortSamples
  exact List.mem_insertionSort (· ≤ ·)

theorem rat_fract_nonneg (h : ℚ) : (0 : ℚ) ≤ h - (⌊h⌋ : ℚ) := by
  have := Int.floor_le h
  linarith

theorem rat_fract_lt_one (h : ℚ) : h - (⌊h⌋ : ℚ) < 1 := by
  have := Int.lt_floor_add_one h
  linarith

/-- A percentile of a list of non-negative samples is non-negative: the
interpolated value is a convex combination of two sorted samples. -/
theorem percentile_nonneg {xs : List ℝ} (hxs : ∀ x ∈ xs, 0 ≤ x) (q : ℚ) :
    0 ≤ percentile xs q := by
  unfold percentile
  set s := sortSamples xs with hs
  have hsmem : ∀ x ∈ s, 0 ≤ x := fun x hx => hxs x (sortSamples_mem.1 hx)
  by_cases hn : s.length = 0
  · simp [hn]
  · simp only [hn, if_false]
    set h : ℚ := ((s.length : ℚ) - 1) * q / 100 with hh
    set frac : ℚ := h - (⌊h⌋ : ℚ) with hfrac
    have hf0 : (0 : ℝ) ≤ (frac : ℝ) := by
      exact_mod_cast rat_fract_nonneg h
    have hf1 : (frac : ℝ) ≤ 1 := by
      have := rat_fract_lt_one h
      have : (frac : ℝ) < 1 := by exact_mod_cast this
      linarith
    have hlo : 0 ≤ s.getD (⌊h⌋).toNat 0 := getD_nonneg hsmem _
    have hhi : 0 ≤ s.getD (min ((⌊h⌋).toNat + 1) (s.length - 1)) 0 :=
      getD_nonneg hsmem _
    nlinarith [mul_nonneg hf0 hhi, mul_nonneg (sub_nonneg.2 hf1) hlo]

theorem npStd_nonneg (xs : List ℝ) : 0 ≤ npStd xs := Real.sqrt_nonneg _

theorem pyRound_nonneg {x : ℝ} (hx : 0 ≤ x) (n : ℕ) : 0 ≤ pyRound n x := by
  unfold pyRound
  have hp : (0 : ℝ) < 10 ^ n := by positivity
  apply div_nonneg _ (le_of_lt hp)
  have : (0 : ℤ) ≤ round (x * 10 ^ n) := by
    rw [round_eq]
    have : (0 : ℝ) ≤ x * 10 ^ n + 1 / 2 := by positivity
    exact_mod_cast Int.floor_nonneg.2 this
  exact_mod_cast this

/-! ## C2 -/

/-- C2: In every Monte Carlo simulation run, each sampled index value is
clamped to `[-1, 1]` before evaluation; the biomass of each sample equals
`coefficient * index ^ exponent` when the clamped sampled index is
strictly positive and `0` otherwise; the results are then floored to be
`≥ 0`, so every element of the returned sample distribution is
non-negative. -/
theorem monte_carlo_sample_shape (ndvi_value ndvi_std : ℝ) (p : AlloParams)
    (n : ℕ) (za zb zn : ℕ → ℝ) :
    (_run_monte_carlo_simulation ndvi_value ndvi_std p n za zb zn).length = n
    ∧ (∀ k, k < n →
        (_run_monte_carlo_simulation ndvi_value ndvi_std p n za zb zn).getD k 0
          = max 0
            (if 0 < np_clip (normalSample ndvi_value ndvi_std (zn k)) (-1) 1
             then normalSample p.a_mean p.a_std (za k)
               * np_clip (normalSample ndvi_value ndvi_std (zn k)) (-1) 1
                 ^ normalSample p.b_mean p.b_std (zb k)
             else 0))
    ∧ ∀ x ∈ _run_monte_carlo_simulation ndvi_value ndvi_std p n za zb zn,
        0 ≤ x := by
  refine ⟨sim_length _ _ _ _ _ _ _, fun k hk => ?_, sim_mem_nonneg _ _ _ _ _ _ _⟩
  rw [run_monte_carlo_simulation_eq_map]
  have hlen : k < ((List.range n).map fun k =>
      max 0 (if 0 < np_clip (normalSample ndvi_value ndvi_std (zn k)) (-1) 1
        then normalSample p.a_mean p.a_std (za k)
          * np_clip (normalSample ndvi_value ndvi_std (zn k)) (-1) 1
            ^ normalSample p.b_mean p.b_std (zb k)
        else 0)).length := by simpa using hk
  rw [List.getD_eq_getElem _ 0 hlen]
  simp

/-- Witness for C2 at a concrete input: one iteration with zero draws,
unit exponent, `a = 2` and NDVI `0.5` yields the single sample
`2 * 0.5 = 1`. -/
theorem monte_carlo_sample_shape_witness :
    (0 : ℕ) < 1
    ∧ (_run_monte_carlo_simulation 0.5 0 ⟨2, 0, 1, 0⟩ 1 zeroStream
        zeroStream zeroStream).getD 0 0
      = max 0
        (if 0 < np_clip (normalSample 0.5 0 (zeroStream 0)) (-1) 1
         then normalSample 2 0 (zeroStream 0)
           * np_clip (normalSample 0.5 0 (zeroStream 0)) (-1) 1
             ^ normalSample 1 0 (zeroStream 0)
         else 0)
    ∧ (_run_monte_carlo_simulation 0.5 0 ⟨2, 0, 1, 0⟩ 1 zeroStream
        zeroStream zeroStream).getD 0 0 = 1 := by
  have h := (monte_carlo_sample_shape 0.5 0 ⟨2, 0, 1, 0⟩ 1 zeroStream
    zeroStream zeroStream).2.1 0 (by norm_num)
  refine ⟨by norm_num, h, ?_⟩
  rw [h]
  simp only [zeroStream, normalSample, np_clip]
  norm_num [Real.rpow_one]

/-! ## C3 -/

/-- C3: for every summarized distribution, the confidence score equals
`clamp(100 * (1 - std_dev / median), 0, 100)` when the median is strictly
positive and `100` when the median is `0`; it is always within `[0, 100]`;
and a zero-variance distribution yields score `100`. -/
theorem confidence_score_spec (xs : List ℝ) :
    (0 < (_calculate_confidence_metrics xs).median →
      (_calculate_confidence_metrics xs).confidence_score
        = max 0 (min 100
            (100 * (1 - (_calculate_confidence_metrics xs).std_dev
              / (_calculate_confidence_metrics xs).median))))
    ∧ ((_calculate_confidence_metrics xs).median = 0 →
        (_calculate_confidence_metrics xs).confidence_score = 100)
    ∧ 0 ≤ (_calculate_confidence_metrics xs).confidence_score
    ∧ (_calculate_confidence_metrics xs).confidence_score ≤ 100
    ∧ ((_calculate_confidence_metrics xs).std_dev = 0 →
        (_calculate_confidence_metrics xs).confidence_score = 100) := by
  unfold _calculate_confidence_metrics
  simp only [MIN_CONFIDENCE_SCORE, MAX_CONFIDENCE_SCORE]
  by_cases hmed : 0 < percentile xs 50
  · refine ⟨fun _ => ?_, fun h0 => absurd h0 (ne_of_gt hmed), ?_, ?_,
      fun hstd => ?_⟩
    · simp [hmed]
    · simp only [hmed, if_true]
      exact le_max_left 0 _
    · simp only [hmed, if_true]
      exact max_le (by norm_num) (min_le_left _ _)
    · simp only [hmed, if_true, hstd]
      norm_num
  · refine ⟨fun h => absurd h hmed, fun _ => ?_, ?_, ?_, fun _ => ?_⟩ <;>
      simp [hmed]

/-- Witness for C3 at a concrete input: the single-sample distribution
`[1]` has median `1 > 0`, zero standard deviation, and confidence score
`100`. -/
theorem confidence_score_spec_witness :
    (_calculate_confidence_metrics [1]).median = 1
    ∧ (_calculate_confidence_metrics [1]).std_dev = 0
    ∧ (_calculate_confidence_metrics [1]).confidence_score = 100 := by
  have hstd : (_calculate_confidence_metrics [1]).std_dev = 0 := by
    show npStd [1] = 0
    unfold npStd npMean
    norm_num
  have hmed : (_calculate_confidence_metrics [1]).median = 1 := by
    show percentile [1] 50 = 1
    unfold percentile sortSamples
    simp [List.insertionSort, List.orderedInsert]
  exact ⟨hmed, hstd, (confidence_score_spec [1]).2.2.2.2 hstd⟩

/-! ## C4 -/

/-- A draw stream whose standard-normal draws are all `-7.5`; with the
Tier 1 exponent distribution (mean `1.60`, std `0.08`) it produces
exponent samples of exactly `1`. -/
noncomputable def negSevenHalfStream : ℕ → ℝ := fun _ => -7.5

/-- A draw stream whose standard-normal draws are all `10`; with NDVI
uncertainty `0.05` it shifts the sampled index `0.5` above the input. -/
noncomputable def tenStream : ℕ → ℝ := fun _ => 10

/-- Counterexample to C4 as stated: with input index value `0 ≤ 0` and the
default index uncertainty `0.05`, a draw stream can push the sampled index
to `0.5 > 0`, so the simulated biomass is `142.9 * 0.5 = 71.45 ≠ 0` — the
biomass for a non-positive input index is not deterministically zero,
because the simulation perturbs the index itself before the positivity
test. -/
theorem nonpositive_index_counterexample :
    (0 : ℝ) ≤ 0
    ∧ DEFAULT_NDVI_STD = 0.05
    ∧ _run_monte_carlo_simulation 0 DEFAULT_NDVI_STD tier1Params 1
        zeroStream negSevenHalfStream tenStream = [71.45]
    ∧ (71.45 : ℝ) ≠ 0 := by
  refine ⟨le_refl 0, rfl, ?_, by norm_num⟩
  rw [run_monte_carlo_simulation_eq_map]
  simp only [List.range_succ, List.range_zero, List.nil_append,
    List.map_cons, List.map_nil, zeroStream, negSevenHalfStream, tenStream,
    normalSample, tier1Params, DEFAULT_NDVI_STD, TIER1_AGB_COEFFICIENT_A,
    TIER1_AGB_STD_A, TIER1_AGB_EXPONENT_B, TIER1_AGB_STD_B]
  norm_num [np_clip]

/-- C4 (amended): the biomass of a sample is `0` whenever the clamped *sampled*
index is non-positive, regardless of the coefficient and exponent samples;
in particular, when the index uncertainty is `0` and the input index value
is `≤ 0`, every sample of the distribution is `0`.  (For a non-positive
input index with positive uncertainty, individual sampled indices can
still be positive, so the distribution is not deterministically zero.) -/
theorem nonpositive_sample_zero (ndvi_value ndvi_std : ℝ) (p : AlloParams)
    (n : ℕ) (za zb zn : ℕ → ℝ) :
    (∀ k, k < n →
      np_clip (normalSample ndvi_value ndvi_std (zn k)) (-1) 1 ≤ 0 →
      (_run_monte_carlo_simulation ndvi_value ndvi_std p n za zb zn).getD k 0
        = 0)
    ∧ (ndvi_std = 0 → ndvi_value ≤ 0 →
        ∀ x ∈ _run_monte_carlo_simulation ndvi_value ndvi_std p n za zb zn,
          x = 0) := by
  constructor
  · intro k hk hclip
    rw [run_monte_carlo_simulation_eq_map]
    have hlen : k < ((List.range n).map fun k =>
        max 0 (if 0 < np_clip (normalSample ndvi_value ndvi_std (zn k)) (-1) 1
          then normalSample p.a_mean p.a_std (za k)
            * np_clip (normalSample ndvi_value ndvi_std (zn k)) (-1) 1
              ^ normalSample p.b_mean p.b_std (zb k)
          else 0)).length := by simpa using hk
    rw [List.getD_eq_getElem _ 0 hlen]
    simp only [List.getElem_map, List.getElem_range]
    rw [if_neg (not_lt.2 hclip)]
    exact max_eq_left (le_refl 0)
  · intro hstd hval x hx
    rw [run_monte_carlo_simulation_eq_map] at hx
    obtain ⟨k, _, rfl⟩ := List.mem_map.1 hx
    have hsample : normalSample ndvi_value ndvi_std (zn k) = ndvi_value := by
      rw [hstd, normalSample, zero_mul, add_zero]
    have hclip : np_clip (normalSample ndvi_value ndvi_std (zn k)) (-1) 1 ≤ 0 := by
      rw [hsample, np_clip]
      exact le_trans (min_le_right _ _) (max_le (by norm_num) hval)
    rw [if_neg (not_lt.2 hclip)]
    exact max_eq_left (le_refl 0)

/-- Witness for the amended C4: with zero index uncertainty and input
index `-0.5 ≤ 0`, the two-iteration distribution evaluates to all
zeros. -/
theorem nonpositive_sample_zero_witness :
    (0 : ℝ) = 0
    ∧ (-0.5 : ℝ) ≤ 0
    ∧ (_run_monte_carlo_simulation (-0.5) 0 tier1Params 2 zeroStream
        zeroStream zeroStream).getD 0 0 = 0 := by
  refine ⟨rfl, by norm_num, ?_⟩
  have h := (nonpositive_sample_zero (-0.5) 0 tier1Params 2 zeroStream
    zeroStream zeroStream).2 rfl (by norm_num)
  have hlen : 0 < (_run_monte_carlo_simulation (-0.5) 0 tier1Params 2
      zeroStream zeroStream zeroStream).length := by
    rw [sim_length]
    norm_num
  rw [List.getD_eq_getElem _ 0 hlen]
  exact h _ (List.getElem_mem hlen)

/-! ## C10 -/

theorem catalog_entry_valid (cid : ℕ) (p : AlloParams)
    (h : ALLOMETRIC_PARAMS cid = some p) :
    _validate_allometric_params p = .ok () := by
  unfold ALLOMETRIC_PARAMS at h
  split at h <;>
    [skip; skip; skip; skip; skip; skip; skip; skip; skip;
     exact absurd h (by simp)] <;>
  · injection h with h
    subst h
    unfold _validate_allometric_params
    norm_num

theorem tier1_params_valid :
    _validate_allometric_params tier1Params = .ok () := by
  unfold _validate_allometric_params tier1Params TIER1_AGB_COEFFICIENT_A
    TIER1_AGB_STD_A TIER1_AGB_EXPONENT_B TIER1_AGB_STD_B
  norm_num

theorem select_params_from_catalog (lulc : PyVal) (pr : String × AlloParams)
    (h : _select_allometric_params lulc = .ok pr) :
    ∃ cid, ALLOMETRIC_PARAMS cid = some pr.2 := by
  unfold _select_allometric_params at h
  split at h
  · exact absurd h (by simp)
  · split at h
    · exact absurd h (by simp)
    · split at h
      · split at h
        · exact absurd h (by simp)
        · rename_i s cid hcid
          split at h
          · exact absurd h (by simp)
          · rename_i params hparams
            injection h with h
            subst h
            exact ⟨cid, hparams⟩
      · exact absurd h (by simp)

theorem resolveParams_valid (lulc : PyVal) :
    _validate_allometric_params (resolveParams lulc).2 = .ok () := by
  unfold resolveParams
  split
  · split
    · exact tier1_params_valid
    · split
      · exact tier1_params_valid
      · rename_i pr hpr
        obtain ⟨cid, hcid⟩ := select_params_from_catalog lulc pr hpr
        exact catalog_entry_valid cid pr.2 hcid
  · exact tier1_params_valid

theorem processPoint_error_calc {p : NdviPoint} {params : AlloParams}
    {area : ℝ} {za zb zn : ℕ → ℝ} {e : CarbonError}
    (h : processPoint p params area za zb zn = .error e) :
    e = .calculationError "Invalid NDVI value (must be -1 to 1)" := by
  unfold processPoint at h
  split at h
  · injection h with h
    exact h.symm
  · exact absurd h (by simp)

theorem processPoints_error_calc {params : AlloParams} {area : ℝ}
    {g : ℕ → ℝ} :
    ∀ {pts : List NdviPoint} {i c : ℕ} {e : CarbonError},
      processPoints params area g pts i = (c, .error e) →
      e = .calculationError "Invalid NDVI value (must be -1 to 1)" := by
  intro pts
  induction pts with
  | nil =>
    intro i c e h
    unfold processPoints at h
    exact absurd (congrArg Prod.snd h) (by simp)
  | cons p rest ih =>
    intro i c e h
    unfold processPoints at h
    split at h
    · rename_i e1 hpp
      have h2 := congrArg Prod.snd h
      simp only at h2
      injection h2 with h2
      rw [← h2]
      exact processPoint_error_calc hpp
    · rename_i t hpp
      split at h
      · rename_i c1 e1 hrec
        have h2 := congrArg Prod.snd h
        simp only at h2
        injection h2 with h2
        rw [← h2]
        exact ih hrec
      · exact absurd (congrArg Prod.snd h) (by simp)

/-! ## C10 -/

/-- C10: every catalog entry and the Tier 1 defaults carry the four
required non-negative numeric fields, so the parameter validation step
accepts every parameter set the resolver can produce and
`AllometricParameterError` is unreachable through the public estimate
operation, for any caller input. -/
theorem allometric_validation_never_fails :
    (∀ cid p, ALLOMETRIC_PARAMS cid = some p →
      _validate_allometric_params p = .ok ())
    ∧ _validate_allometric_params tier1Params = .ok ()
    ∧ (∀ lulc, _validate_allometric_params (resolveParams lulc).2 = .ok ())
    ∧ ∀ nd area sd ed lulc g,
        raisedAllometricError
          (estimate_carbon_sequestration nd area sd ed lulc g) = false := by
  refine ⟨catalog_entry_valid, tier1_params_valid, resolveParams_valid,
    fun nd area sd ed lulc g => ?_⟩
  unfold estimate_carbon_sequestration estimateAux
  split
  · rfl
  · split
    · rfl
    · split
      · rfl
      · dsimp only
        rw [resolveParams_valid lulc]
        rcases hpp : processPoints (resolveParams lulc).2 area g nd 0
          with ⟨c, r⟩
        cases r with
        | error e =>
          obtain rfl := processPoints_error_calc hpp
          rfl
        | ok acc =>
          dsimp only
          split
          · rfl
          · rfl

/-- Witness for C10 at a concrete catalog entry: the Trees class (id 1)
is present and passes parameter validation. -/
theorem allometric_validation_never_fails_witness :
    ALLOMETRIC_PARAMS 1 = some ⟨185.5, 15.2, 1.75, 0.12⟩
    ∧ _validate_allometric_params ⟨185.5, 15.2, 1.75, 0.12⟩ = .ok () := by
  refine ⟨rfl, ?_⟩
  exact allometric_validation_never_fails.1 1 ⟨185.5, 15.2, 1.75, 0.12⟩ rfl

theorem processPoint_ok_of_valid {p : NdviPoint} {params : AlloParams}
    {area : ℝ} {za zb zn : ℕ → ℝ} (h : ndviValid p) :
    processPoint p params area za zb zn
      = .ok (pointPayload p params area za zb zn) := by
  unfold ndviValid at h
  unfold processPoint
  rw [if_neg (not_not_intro h)]

theorem processPoint_error_of_invalid {p : NdviPoint} {params : AlloParams}
    {area : ℝ} {za zb zn : ℕ → ℝ} (h : ¬ ndviValid p) :
    processPoint p params area za zb zn
      = .error (.calculationError "Invalid NDVI value (must be -1 to 1)") := by
  unfold ndviValid at h
  unfold processPoint
  rw [if_pos h]

theorem processPoint_ok_payload {p : NdviPoint} {params : AlloParams}
    {area : ℝ} {za zb zn : ℕ → ℝ} {t : DataPoint × ℝ × ℝ × ℝ × ℝ}
    (h : processPoint p params area za zb zn = .ok t) :
    t = pointPayload p params area za zb zn := by
  unfold processPoint at h
  split at h
  · exact absurd h (by simp)
  · injection h with h
    exact h.symm

theorem processPoints_ok_of_valid {params : AlloParams} {area : ℝ}
    {g : ℕ → ℝ} :
    ∀ (pts : List NdviPoint) (i : ℕ), (∀ p ∈ pts, ndviValid p) →
      ∃ acc, processPoints params area g pts i = (pts.length, .ok acc) := by
  intro pts
  induction pts with
  | nil =>
    intro i _
    exact ⟨⟨[], [], [], [], []⟩, rfl⟩
  | cons p rest ih =>
    intro i h
    obtain ⟨acc1, hrec⟩ := ih (i + 1)
      (fun q hq => h q (List.mem_cons_of_mem _ hq))
    unfold processPoints
    rw [processPoint_ok_of_valid (h p (List.mem_cons_self p rest)), hrec]
    exact ⟨_, rfl⟩

theorem processPoints_ok_spec {params : AlloParams} {area : ℝ} {g : ℕ → ℝ} :
    ∀ {pts : List NdviPoint} {i c : ℕ} {acc : LoopAcc},
      processPoints params area g pts i = (c, .ok acc) →
      c = pts.length
      ∧ acc.points.length = pts.length
      ∧ acc.agb_values.length = pts.length
      ∧ acc.carbon_values.length = pts.length
      ∧ ∀ j, j < pts.length →
          acc.points.getD j default
              = (pointPayload (pts.getD j default) params area
                  (drawA g (i + j)) (drawB g (i + j)) (drawN g (i + j))).1
          ∧ acc.agb_values.getD j 0
              = (pointPayload (pts.getD j default) params area
                  (drawA g (i + j)) (drawB g (i + j)) (drawN g (i + j))).2.1
          ∧ acc.carbon_values.getD j 0
              = (pointPayload (pts.getD j default) params area
                  (drawA g (i + j)) (drawB g (i + j)) (drawN g (i + j))).2.2.1 := by
  intro pts
  induction pts with
  | nil =>
    intro i c acc h
    unfold processPoints at h
    have hc := congrArg Prod.fst h
    have hacc := congrArg Prod.snd h
    simp only at hc hacc
    injection hacc with hacc
    subst hacc
    exact ⟨hc.symm, rfl, rfl, rfl, fun j hj => absurd hj (by simp)⟩
  | cons p rest ih =>
    intro i c acc h
    unfold processPoints at h
    split at h
    · exact absurd (congrArg Prod.snd h) (by simp)
    · rename_i dp agb carbon conf sd hpp
      split at h
      · exact absurd (congrArg Prod.snd h) (by simp)
      · rename_i c1 acc1 hrec
        have hc := congrArg Prod.fst h
        have hacc := congrArg Prod.snd h
        simp only at hc hacc
        injection hacc with hacc
        subst hacc
        obtain ⟨hc1, hlp, hla, hlc, hidx⟩ := ih hrec
        have hpayload := processPoint_ok_payload hpp
        refine ⟨by simp [← hc, hc1], by simp [hlp], by simp [hla],
          by simp [hlc], fun j hj => ?_⟩
        cases j with
        | zero =>
          simp only [List.getD_cons_zero, Nat.add_zero]
          exact ⟨congrArg Prod.fst hpayload,
            congrArg (fun t => t.2.1) hpayload,
            congrArg (fun t => t.2.2.1) hpayload⟩
        | succ j =>
          have hj1 : j < rest.length := by simpa using hj
          have harith : i + 1 + j = i + (j + 1) := by omega
          have hrs := hidx j hj1
          rw [harith] at hrs
          simp only [List.getD_cons_succ]
          exact hrs

theorem estimate_ok_shape (nd : List NdviPoint) (area : ℝ) (sd ed : ℤ)
    (lulc : PyVal) (g : ℕ → ℝ) (hnd : nd ≠ []) (harea : 0 < area)
    (hdates : sd ≤ ed) (hvalid : ∀ p ∈ nd, ndviValid p) :
    ∃ acc,
      processPoints (resolveParams lulc).2 area g nd 0
        = (nd.length, .ok acc)
      ∧ estimateAux nd area sd ed lulc g
        = (nd.length, .ok
            { start_date := sd, end_date := ed, area_ha := area,
              data_points := acc.points,
              statistics := buildStatistics nd area acc,
              metadata := buildMetadata lulc (resolveParams lulc).1
                (resolveParams lulc).2 }) := by
  obtain ⟨acc, hacc⟩ := processPoints_ok_of_valid nd 0 hvalid
  obtain ⟨-, -, hla, -, -⟩ := processPoints_ok_spec hacc
  refine ⟨acc, hacc, ?_⟩
  unfold estimateAux
  rw [if_neg (by simp [hnd] : ¬ nd.isEmpty = true),
    if_neg (not_le.2 harea), if_neg (not_lt.2 hdates)]
  dsimp only
  rw [resolveParams_valid lulc, hacc]
  have hne : ¬ acc.agb_values.isEmpty = true := by
    simp only [List.isEmpty_iff]
    intro hh
    rw [hh] at hla
    exact hnd (List.length_eq_zero.1 hla.symm)
  dsimp only
  rw [if_neg hne]

theorem processPoints_error_at_first_invalid {params : AlloParams}
    {area : ℝ} {g : ℕ → ℝ} :
    ∀ (pts : List NdviPoint) (i idx : ℕ),
      idx < pts.length →
      (∀ j, j < idx → ndviValid (pts.getD j default)) →
      ¬ ndviValid (pts.getD idx default) →
      processPoints params area g pts i
        = (idx,
          .error (.calculationError "Invalid NDVI value (must be -1 to 1)")) := by
  intro pts
  induction pts with
  | nil =>
    intro i idx h
    simp at h
  | cons p rest ih =>
    intro i idx hlt hpre hbad
    cases idx with
    | zero =>
      unfold processPoints
      rw [processPoint_error_of_invalid (by simpa using hbad)]
    | succ idx =>
      unfold processPoints
      rw [processPoint_ok_of_valid
        (by simpa using hpre 0 (Nat.succ_pos idx))]
      rw [ih (i + 1) idx (by simpa using hlt)
        (fun j hj => by simpa using hpre (j + 1) (by omega))
        (by simpa using hbad)]

/-! ## C1 -/

/-- C1 (amended): the three request-level validations (series non-empty,
area strictly positive, `end_date ≥ start_date`) fail fast, raising
`CalculationError` with zero Monte Carlo simulations executed; the
per-measurement index range check raises `CalculationError` when its
measurement is reached, so exactly one simulation has already executed for
each valid measurement preceding the first offending one — zero only when
the offending measurement is first. -/
theorem request_validation_order (nd : List NdviPoint) (area : ℝ)
    (sd ed : ℤ) (lulc : PyVal) (g : ℕ → ℝ) :
    (nd = [] → estimateAux nd area sd ed lulc g
        = (0, .error (.calculationError "No NDVI data provided")))
    ∧ (nd ≠ [] → area ≤ 0 → estimateAux nd area sd ed lulc g
        = (0, .error (.calculationError "Area must be positive")))
    ∧ (nd ≠ [] → 0 < area → ed < sd → estimateAux nd area sd ed lulc g
        = (0, .error (.calculationError
            "Invalid date range: end_date must be >= start_date")))
    ∧ ∀ idx, nd ≠ [] → 0 < area → sd ≤ ed → idx < nd.length →
        (∀ j, j < idx → ndviValid (nd.getD j default)) →
        ¬ ndviValid (nd.getD idx default) →
        estimateAux nd area sd ed lulc g
          = (idx,
            .error (.calculationError "Invalid NDVI value (must be -1 to 1)")) := by
  refine ⟨fun h => ?_, fun h1 h2 => ?_, fun h1 h2 h3 => ?_,
    fun idx h1 h2 h3 h4 h5 h6 => ?_⟩
  · subst h
    rfl
  · unfold estimateAux
    rw [if_neg (by simp [h1] : ¬ nd.isEmpty = true), if_pos h2]
  · unfold estimateAux
    rw [if_neg (by simp [h1] : ¬ nd.isEmpty = true),
      if_neg (not_le.2 h2), if_pos h3]
  · unfold estimateAux
    rw [if_neg (by simp [h1] : ¬ nd.isEmpty = true),
      if_neg (not_le.2 h2), if_neg (not_lt.2 h3)]
    dsimp only
    rw [resolveParams_valid lulc,
      processPoints_error_at_first_invalid nd 0 idx h4 h5 h6]

/-- Witness for the amended C1: an empty series raises the no-measurements
`CalculationError` with zero simulations executed. -/
theorem request_validation_order_witness :
    ([] : List NdviPoint) = []
    ∧ estimateAux [] 100 0 1 PyVal.none zeroStream
      = (0, .error (.calculationError "No NDVI data provided")) := by
  exact ⟨rfl,
    (request_validation_order [] 100 0 1 PyVal.none zeroStream).1 rfl⟩

/-- A two-measurement series whose second index value is out of range. -/
noncomputable def twoPointSeries : List NdviPoint :=
  [⟨"2023-01-15", 0.45, Option.none⟩, ⟨"2023-03-15", 1.5, Option.none⟩]

/-- Counterexample to C1 as stated: with a valid first measurement and an
out-of-range second one (`index_value = 1.5`), the call does raise
`CalculationError`, but only after the Monte Carlo simulation for the
first measurement has executed (simulation count `1`, not `0`) — the index
range check is per measurement inside the loop, not a fail-fast request
validation. -/
theorem validation_before_simulation_counterexample :
    (estimateAux twoPointSeries 100 0 1 PyVal.none zeroStream).2
      = .error (.calculationError "Invalid NDVI value (must be -1 to 1)")
    ∧ (estimateAux twoPointSeries 100 0 1 PyVal.none zeroStream).1 = 1
    ∧ (estimateAux twoPointSeries 100 0 1 PyVal.none zeroStream).1 ≠ 0 := by
  have h : estimateAux twoPointSeries 100 0 1 PyVal.none zeroStream
      = (1, .error (.calculationError "Invalid NDVI value (must be -1 to 1)")) := by
    unfold estimateAux
    rw [if_neg (by simp [twoPointSeries] : ¬ twoPointSeries.isEmpty = true),
      if_neg (by norm_num : ¬ (100 : ℝ) ≤ 0),
      if_neg (by norm_num : ¬ (1 : ℤ) < 0)]
    dsimp only
    rw [resolveParams_valid PyVal.none,
      processPoints_error_at_first_invalid twoPointSeries 0 1
        (by simp [twoPointSeries])
        (fun j hj => by
          interval_cases j
          simp only [twoPointSeries, List.getD_cons_zero, ndviValid]
          norm_num)
        (by
          simp only [twoPointSeries, List.getD_cons_succ,
            List.getD_cons_zero, ndviValid]
          norm_num)]
  rw [h]
  exact ⟨rfl, rfl, by norm_num⟩

/-! ## C5 -/

/-- The `land_use_class` metadata field of a successful call. -/
noncomputable def reportLandUse (e : Except CarbonError Report) :
    Option (Option String) :=
  (reportOf e).map fun r => r.metadata.land_use_class

/-- Whether the land-cover input resolves to a Tier 2 class: `some` when
it is truthy and passes validation and selection, `none` when it is
absent/falsy or fails either step. -/
noncomputable def lulcResolved (lulc : PyVal) :
    Option (String × AlloParams) :=
  if pyTruthy lulc then
    match _validate_lulc_data lulc with
    | .error _ => Option.none
    | .ok _ =>
      match _select_allometric_params lulc with
      | .error _ => Option.none
      | .ok pr => some pr
  else Option.none

theorem resolveParams_fallback {lulc : PyVal}
    (h : lulcResolved lulc = Option.none) :
    resolveParams lulc = (Option.none, tier1Params) := by
  unfold resolveParams
  unfold lulcResolved at h
  by_cases ht : pyTruthy lulc = true
  · rw [if_pos ht] at h ⊢
    cases hv : _validate_lulc_data lulc with
    | error e => rfl
    | ok u =>
      cases hs : _select_allometric_params lulc with
      | error e => rfl
      | ok pr =>
        rw [hv, hs] at h
        exact Option.noConfusion h
  · rw [if_neg ht] at h ⊢

/-- C5: a missing or invalid land-cover summary never makes the estimate
raise: resolution falls back to the Tier 1 default parameters with no
resolved class label, and — the other inputs being valid — a complete
report is still returned, with a null `land_use_class` in its metadata. -/
theorem lulc_fallback_never_blocks (lulc : PyVal)
    (h : lulcResolved lulc = Option.none) (nd : List NdviPoint) (area : ℝ)
    (sd ed : ℤ) (g : ℕ → ℝ) (hnd : nd ≠ []) (harea : 0 < area)
    (hdates : sd ≤ ed) (hvalid : ∀ p ∈ nd, ndviValid p) :
    resolveParams lulc = (Option.none, tier1Params)
    ∧ callSucceeded (estimate_carbon_sequestration nd area sd ed lulc g)
        = true
    ∧ reportLandUse (estimate_carbon_sequestration nd area sd ed lulc g)
        = some Option.none := by
  have hres := resolveParams_fallback h
  obtain ⟨acc, hacc, hest⟩ := estimate_ok_shape nd area sd ed lulc g hnd
    harea hdates hvalid
  refine ⟨hres, ?_, ?_⟩
  · unfold estimate_carbon_sequestration
    rw [hest]
    rfl
  · unfold estimate_carbon_sequestration reportLandUse reportOf
    rw [hest, hres]
    rfl

/-- A land-cover summary naming an unknown class. -/
def lulcUnknownClass : PyVal :=
  PyVal.dict [("dominant_class", PyVal.str "Desert")]

/-- A single valid measurement. -/
noncomputable def onePointSeries : List NdviPoint :=
  [⟨"2023-01-15", 0.45, Option.none⟩]

/-- Witness for C5 at a concrete input: an unknown dominant class falls
back to Tier 1 and the call still returns a complete report with a null
resolved class. -/
theorem lulc_fallback_never_blocks_witness :
    lulcResolved lulcUnknownClass = Option.none
    ∧ callSucceeded (estimate_carbon_sequestration onePointSeries 100 0 1
        lulcUnknownClass zeroStream) = true
    ∧ reportLandUse (estimate_carbon_sequestration onePointSeries 100 0 1
        lulcUnknownClass zeroStream) = some Option.none := by
  have hres : lulcResolved lulcUnknownClass = Option.none := by
    simp [lulcResolved, lulcUnknownClass, _validate_lulc_data,
      LULC_CLASS_NAME_TO_ID, pyTruthy, List.lookup]
  have hmain := lulc_fallback_never_blocks lulcUnknownClass hres
    onePointSeries 100 0 1 zeroStream (by simp [onePointSeries])
    (by norm_num) (by norm_num)
    (by
      intro p hp
      simp only [onePointSeries, List.mem_singleton] at hp
      subst hp
      exact ⟨by norm_num, by norm_num⟩)
  exact ⟨hres, hmain.2.1, hmain.2.2⟩

/-! ## C9 -/

theorem buildMetadata_none (lulc : PyVal) (params : AlloParams) :
    buildMetadata lulc Option.none params
      = buildMetadata PyVal.none Option.none params := by
  unfold buildMetadata
  split <;> rfl

theorem estimate_fallback_metadata (lulc : PyVal)
    (h : lulcResolved lulc = Option.none) (nd : List NdviPoint) (area : ℝ)
    (sd ed : ℤ) (g : ℕ → ℝ) (hnd : nd ≠ []) (harea : 0 < area)
    (hdates : sd ≤ ed) (hvalid : ∀ p ∈ nd, ndviValid p) :
    reportMetadata (estimate_carbon_sequestration nd area sd ed lulc g)
      = some (buildMetadata PyVal.none Option.none tier1Params) := by
  have hres := resolveParams_fallback h
  obtain ⟨acc, hacc, hest⟩ := estimate_ok_shape nd area sd ed lulc g hnd
    harea hdates hvalid
  unfold estimate_carbon_sequestration reportMetadata reportOf
  rw [hest, hres]
  dsimp only
  rw [buildMetadata_none]
  rfl

/-- C9 (amended): when land-cover resolution fails on a provided (truthy)
summary, the returned metadata of the report does record the fact of the
fallback — a null `land_use_class`, the Tier 1 default parameters, and the
Tier 1 fallback assumption string — but not the reason for it: the
metadata equals a fixed value, identical to the metadata of a call with no
land cover at all, whatever the resolution failure was (the reason is only
logged). -/
theorem fallback_recorded_without_reason (lulc : PyVal)
    (_ht : pyTruthy lulc = true) (h : lulcResolved lulc = Option.none)
    (nd : List NdviPoint) (area : ℝ) (sd ed : ℤ) (g : ℕ → ℝ)
    (hnd : nd ≠ []) (harea : 0 < area) (hdates : sd ≤ ed)
    (hvalid : ∀ p ∈ nd, ndviValid p) :
    reportMetadata (estimate_carbon_sequestration nd area sd ed lulc g)
      = some (buildMetadata PyVal.none Option.none tier1Params)
    ∧ (buildMetadata PyVal.none Option.none tier1Params).land_use_class
        = Option.none
    ∧ tier1FallbackAssumption
        ∈ (buildMetadata PyVal.none Option.none tier1Params).assumptions
    ∧ (buildMetadata PyVal.none Option.none tier1Params).allometric_params
        = tier1Params := by
  refine ⟨estimate_fallback_metadata lulc h nd area sd ed g hnd harea
    hdates hvalid, rfl, ?_, rfl⟩
  unfold buildMetadata
  simp [pyTruthy]

/-- A land-cover summary missing the `dominant_class` key. -/
def lulcMissingKey : PyVal := PyVal.dict [("classes", PyVal.other)]

/-- Counterexample to C9 as stated: two invalid land-cover inputs that
fail resolution for different reasons (missing `dominant_class` key vs.
unknown class name) produce reports with identical metadata, itself
identical to the metadata of a call with no land cover at all — so the
reason for the fallback is not recorded anywhere in the output. -/
theorem fallback_reason_not_recorded_counterexample :
    _validate_lulc_data lulcMissingKey
      = .error (.lulcIntegrationError "LULC data missing dominant_class key")
    ∧ _validate_lulc_data lulcUnknownClass
      = .error (.lulcIntegrationError "Unknown land use class: Desert")
    ∧ reportMetadata (estimate_carbon_sequestration onePointSeries 100 0 1
        lulcMissingKey zeroStream)
      = reportMetadata (estimate_carbon_sequestration onePointSeries 100 0 1
        lulcUnknownClass zeroStream)
    ∧ reportMetadata (estimate_carbon_sequestration onePointSeries 100 0 1
        lulcMissingKey zeroStream)
      = reportMetadata (estimate_carbon_sequestration onePointSeries 100 0 1
        PyVal.none zeroStream)
    ∧ callSucceeded (estimate_carbon_sequestration onePointSeries 100 0 1
        lulcMissingKey zeroStream) = true := by
  have hvalid : ∀ p ∈ onePointSeries, ndviValid p := by
    intro p hp
    simp only [onePointSeries, List.mem_singleton] at hp
    subst hp
    exact ⟨by norm_num, by norm_num⟩
  have hndne : onePointSeries ≠ [] := by simp [onePointSeries]
  have hrA : lulcResolved lulcMissingKey = Option.none := by
    simp [lulcResolved, lulcMissingKey, _validate_lulc_data, pyTruthy,
      List.lookup]
  have hrB : lulcResolved lulcUnknownClass = Option.none := by
    simp [lulcResolved, lulcUnknownClass, _validate_lulc_data,
      LULC_CLASS_NAME_TO_ID, pyTruthy, List.lookup]
  have hrC : lulcResolved PyVal.none = Option.none := by
    simp [lulcResolved, pyTruthy]
  have hA := estimate_fallback_metadata lulcMissingKey hrA onePointSeries
    100 0 1 zeroStream hndne (by norm_num) (by norm_num) hvalid
  have hB := estimate_fallback_metadata lulcUnknownClass hrB onePointSeries
    100 0 1 zeroStream hndne (by norm_num) (by norm_num) hvalid
  have hC := estimate_fallback_metadata PyVal.none hrC onePointSeries
    100 0 1 zeroStream hndne (by norm_num) (by norm_num) hvalid
  refine ⟨?_, ?_, hA.trans hB.symm, hA.trans hC.symm, ?_⟩
  · simp [lulcMissingKey, _validate_lulc_data, List.lookup]
  · simp [lulcUnknownClass, _validate_lulc_data, LULC_CLASS_NAME_TO_ID,
      List.lookup]
  · obtain ⟨acc, hacc, hest⟩ := estimate_ok_shape onePointSeries 100 0 1
      lulcMissingKey zeroStream hndne (by norm_num) (by norm_num) hvalid
    unfold estimate_carbon_sequestration
    rw [hest]
    rfl

/-- Witness for the amended C9 at a concrete input: the unknown-class
summary is truthy, fails resolution, and yields the fixed Tier 1 fallback
metadata. -/
theorem fallback_recorded_without_reason_witness :
    pyTruthy lulcUnknownClass = true
    ∧ lulcResolved lulcUnknownClass = Option.none
    ∧ reportMetadata (estimate_carbon_sequestration onePointSeries 100 0 1
        lulcUnknownClass zeroStream)
      = some (buildMetadata PyVal.none Option.none tier1Params)
    ∧ tier1FallbackAssumption
        ∈ (buildMetadata PyVal.none Option.none tier1Params).assumptions := by
  have hrB : lulcResolved lulcUnknownClass = Option.none := by
    simp [lulcResolved, lulcUnknownClass, _validate_lulc_data,
      LULC_CLASS_NAME_TO_ID, pyTruthy, List.lookup]
  have hmain := fallback_recorded_without_reason lulcUnknownClass
    (by simp [lulcUnknownClass, pyTruthy]) hrB onePointSeries 100 0 1
    zeroStream (by simp [onePointSeries]) (by norm_num) (by norm_num)
    (by
      intro p hp
      simp only [onePointSeries, List.mem_singleton] at hp
      subst hp
      exact ⟨by norm_num, by norm_num⟩)
  exact ⟨by simp [lulcUnknownClass, pyTruthy], hrB, hmain.1, hmain.2.2.1⟩

/-! ## C8 -/

theorem sim_congr {ndvi_value ndvi_std : ℝ} {p : AlloParams} {n : ℕ}
    {za1 zb1 zn1 za2 zb2 zn2 : ℕ → ℝ}
    (ha : ∀ k, k < n → za1 k = za2 k) (hb : ∀ k, k < n → zb1 k = zb2 k)
    (hn : ∀ k, k < n → zn1 k = zn2 k) :
    _run_monte_carlo_simulation ndvi_value ndvi_std p n za1 zb1 zn1
      = _run_monte_carlo_simulation ndvi_value ndvi_std p n za2 zb2 zn2 := by
  rw [run_monte_carlo_simulation_eq_map, run_monte_carlo_simulation_eq_map]
  apply List.map_congr_left
  intro k hk
  rw [ha k (List.mem_range.1 hk), hb k (List.mem_range.1 hk),
    hn k (List.mem_range.1 hk)]

theorem pointPayload_congr {p : NdviPoint} {params : AlloParams} {area : ℝ}
    {za1 zb1 zn1 za2 zb2 zn2 : ℕ → ℝ}
    (ha : ∀ k, k < MONTE_CARLO_ITERATIONS → za1 k = za2 k)
    (hb : ∀ k, k < MONTE_CARLO_ITERATIONS → zb1 k = zb2 k)
    (hn : ∀ k, k < MONTE_CARLO_ITERATIONS → zn1 k = zn2 k) :
    pointPayload p params area za1 zb1 zn1
      = pointPayload p params area za2 zb2 zn2 := by
  unfold pointPayload pointMC
  rw [sim_congr ha hb hn]

theorem processPoint_congr {p : NdviPoint} {params : AlloParams} {area : ℝ}
    {za1 zb1 zn1 za2 zb2 zn2 : ℕ → ℝ}
    (ha : ∀ k, k < MONTE_CARLO_ITERATIONS → za1 k = za2 k)
    (hb : ∀ k, k < MONTE_CARLO_ITERATIONS → zb1 k = zb2 k)
    (hn : ∀ k, k < MONTE_CARLO_ITERATIONS → zn1 k = zn2 k) :
    processPoint p params area za1 zb1 zn1
      = processPoint p params area za2 zb2 zn2 := by
  unfold processPoint
  rw [pointPayload_congr ha hb hn]

theorem processPoints_congr {params : AlloParams} {area : ℝ} :
    ∀ (pts : List NdviPoint) (i : ℕ) (g1 g2 : ℕ → ℝ),
      (∀ k, 3 * MONTE_CARLO_ITERATIONS * i ≤ k →
        k < 3 * MONTE_CARLO_ITERATIONS * (i + pts.length) → g1 k = g2 k) →
      processPoints params area g1 pts i
        = processPoints params area g2 pts i := by
  intro pts
  induction pts with
  | nil =>
    intro i g1 g2 h
    rfl
  | cons p rest ih =>
    intro i g1 g2 h
    have hA : ∀ k, k < MONTE_CARLO_ITERATIONS → drawA g1 i k = drawA g2 i k := by
      intro k hk
      unfold drawA
      apply h <;> (simp only [MONTE_CARLO_ITERATIONS, List.length_cons] at *; omega)
    have hB : ∀ k, k < MONTE_CARLO_ITERATIONS → drawB g1 i k = drawB g2 i k := by
      intro k hk
      unfold drawB
      apply h <;> (simp only [MONTE_CARLO_ITERATIONS, List.length_cons] at *; omega)
    have hN : ∀ k, k < MONTE_CARLO_ITERATIONS → drawN g1 i k = drawN g2 i k := by
      intro k hk
      unfold drawN
      apply h <;> (simp only [MONTE_CARLO_ITERATIONS, List.length_cons] at *; omega)
    have hrest : ∀ k, 3 * MONTE_CARLO_ITERATIONS * (i + 1) ≤ k →
        k < 3 * MONTE_CARLO_ITERATIONS * (i + 1 + rest.length) →
        g1 k = g2 k := by
      intro k hk1 hk2
      apply h <;> (simp only [MONTE_CARLO_ITERATIONS, List.length_cons] at *; omega)
    unfold processPoints
    rw [processPoint_congr hA hB hN, ih (i + 1) g1 g2 hrest]

/-- C8: the only source in the engine of randomness is the injectable
standard-normal draw stream (the modelled process RNG state fixed by a
seed): two calls with the same series, area, dates, land cover and draw
streams that agree on the `3 * 10000 * len(series)` draws the call
consumes return identical instrumented results and identical reports. -/
theorem estimate_seed_determinism (nd : List NdviPoint) (area : ℝ)
    (sd ed : ℤ) (lulc : PyVal) (g1 g2 : ℕ → ℝ)
    (h : ∀ k, k < 3 * MONTE_CARLO_ITERATIONS * nd.length → g1 k = g2 k) :
    estimateAux nd area sd ed lulc g1 = estimateAux nd area sd ed lulc g2
    ∧ estimate_carbon_sequestration nd area sd ed lulc g1
      = estimate_carbon_sequestration nd area sd ed lulc g2 := by
  have hpp := @processPoints_congr (resolveParams lulc).2 area nd 0 g1 g2
    (fun k _ hk2 => h k (by simpa using hk2))
  have h1 : estimateAux nd area sd ed lulc g1
      = estimateAux nd area sd ed lulc g2 := by
    unfold estimateAux
    dsimp only
    rw [hpp]
  exact ⟨h1, congrArg Prod.snd h1⟩

/-- A draw stream that agrees with the zero stream exactly on the draws a
one-measurement call consumes and differs afterwards. -/
noncomputable def offsetStream : ℕ → ℝ := fun k => if k < 30000 then 0 else 1

/-- Witness for C8 at a concrete input: a one-point series estimated under
the zero stream and under a stream that only differs beyond the 30,000
consumed draws yields identical reports. -/
theorem estimate_seed_determinism_witness :
    estimate_carbon_sequestration onePointSeries 100 0 1 PyVal.none
      zeroStream
      = estimate_carbon_sequestration onePointSeries 100 0 1 PyVal.none
        offsetStream := by
  refine (estimate_seed_determinism onePointSeries 100 0 1 PyVal.none
    zeroStream offsetStream ?_).2
  intro k hk
  have hk30 : k < 30000 := by
    simp only [MONTE_CARLO_ITERATIONS, onePointSeries,
      List.length_singleton] at hk
    omega
  unfold zeroStream offsetStream
  rw [if_pos hk30]

/-! ## C6 and C7 -/

/-- The median of the summarized Monte Carlo distribution of one
measurement — the central biomass-per-area estimate of the point. -/
noncomputable def pointMedian (p : NdviPoint) (params : AlloParams)
    (za zb zn : ℕ → ℝ) : ℝ :=
  (_calculate_confidence_metrics (pointMC p params za zb zn)).median

theorem pointMedian_nonneg (p : NdviPoint) (params : AlloParams)
    (za zb zn : ℕ → ℝ) : 0 ≤ pointMedian p params za zb zn := by
  unfold pointMedian _calculate_confidence_metrics
  dsimp only
  exact percentile_nonneg
    (sim_mem_nonneg p.ndvi (p.ndvi_std.getD DEFAULT_NDVI_STD) params
      MONTE_CARLO_ITERATIONS za zb zn) 50

theorem estimate_ok_inv {nd : List NdviPoint} {area : ℝ} {sd ed : ℤ}
    {lulc : PyVal} {g : ℕ → ℝ} {r : Report}
    (h : estimate_carbon_sequestration nd area sd ed lulc g = .ok r) :
    0 < area
    ∧ ∃ c acc, processPoints (resolveParams lulc).2 area g nd 0 = (c, .ok acc)
      ∧ r.data_points = acc.points
      ∧ r.statistics = buildStatistics nd area acc := by
  unfold estimate_carbon_sequestration estimateAux at h
  split at h
  · exact absurd h (by simp)
  · split at h
    · exact absurd h (by simp)
    · rename_i hne harea
      split at h
      · exact absurd h (by simp)
      · refine ⟨not_le.1 harea, ?_⟩
        dsimp only at h
        split at h
        · exact absurd h (by simp)
        · split at h
          · exact absurd h (by simp)
          · rename_i c acc hproc
            split at h
            · exact absurd h (by simp)
            · injection h with h
              exact ⟨c, acc, hproc, congrArg Report.data_points h.symm,
                congrArg Report.statistics h.symm⟩

theorem pointPayload_conversion (p : NdviPoint) (params : AlloParams)
    (area : ℝ) (za zb zn : ℕ → ℝ) :
    (pointPayload p params area za zb zn).1.agb_tonnes_ha
      = pyRound 4 (pointMedian p params za zb zn)
    ∧ (pointPayload p params area za zb zn).1.carbon_tonnes_ha
      = pyRound 4 (pointMedian p params za zb zn * CARBON_FRACTION)
    ∧ (pointPayload p params area za zb zn).1.co2_tonnes_ha
      = pyRound 4 (pointMedian p params za zb zn * CARBON_FRACTION
          * CO2_TO_CARBON_RATIO)
    ∧ (pointPayload p params area za zb zn).1.agb_total_tonnes
      = pyRound 4 (pointMedian p params za zb zn * area)
    ∧ (pointPayload p params area za zb zn).1.carbon_total_tonnes
      = pyRound 4 (pointMedian p params za zb zn * CARBON_FRACTION * area)
    ∧ (pointPayload p params area za zb zn).1.co2_total_tonnes
      = pyRound 4 (pointMedian p params za zb zn * CARBON_FRACTION
          * CO2_TO_CARBON_RATIO * area) := by
  have hm : max 0 (_calculate_confidence_metrics
      (pointMC p params za zb zn)).median = pointMedian p params za zb zn :=
    max_eq_right (pointMedian_nonneg p params za zb zn)
  unfold pointPayload
  dsimp only
  rw [hm]
  exact ⟨rfl, rfl, rfl, rfl, rfl, rfl⟩

/-- C6: for every data point of a successful report, the per-area carbon
figure is the per-point median biomass per area times the carbon fraction
0.47, the per-area CO2 figure is the carbon figure times 44/12, and each
total equals the corresponding per-area figure times the parcel area —
exactly, up to the fixed 4-decimal output rounding. -/
theorem conversion_chain (nd : List NdviPoint) (area : ℝ) (sd ed : ℤ)
    (lulc : PyVal) (g : ℕ → ℝ) {r : Report}
    (h : estimate_carbon_sequestration nd area sd ed lulc g = .ok r) :
    r.data_points.length = nd.length
    ∧ ∀ j, j < nd.length →
        (r.data_points.getD j default).agb_tonnes_ha
          = pyRound 4 (pointMedian (nd.getD j default)
              (resolveParams lulc).2 (drawA g j) (drawB g j) (drawN g j))
        ∧ (r.data_points.getD j default).carbon_tonnes_ha
          = pyRound 4 (pointMedian (nd.getD j default)
              (resolveParams lulc).2 (drawA g j) (drawB g j) (drawN g j)
              * CARBON_FRACTION)
        ∧ (r.data_points.getD j default).co2_tonnes_ha
          = pyRound 4 (pointMedian (nd.getD j default)
              (resolveParams lulc).2 (drawA g j) (drawB g j) (drawN g j)
              * CARBON_FRACTION * CO2_TO_CARBON_RATIO)
        ∧ (r.data_points.getD j default).agb_total_tonnes
          = pyRound 4 (pointMedian (nd.getD j default)
              (resolveParams lulc).2 (drawA g j) (drawB g j) (drawN g j)
              * area)
        ∧ (r.data_points.getD j default).carbon_total_tonnes
          = pyRound 4 (pointMedian (nd.getD j default)
              (resolveParams lulc).2 (drawA g j) (drawB g j) (drawN g j)
              * CARBON_FRACTION * area)
        ∧ (r.data_points.getD j default).co2_total_tonnes
          = pyRound 4 (pointMedian (nd.getD j default)
              (resolveParams lulc).2 (drawA g j) (drawB g j) (drawN g j)
              * CARBON_FRACTION * CO2_TO_CARBON_RATIO * area) := by
  obtain ⟨-, c, acc, hproc, hdp, -⟩ := estimate_ok_inv h
  obtain ⟨-, hlp, -, -, hidx⟩ := processPoints_ok_spec hproc
  refine ⟨by rw [hdp, hlp], fun j hj => ?_⟩
  have hj0 := (hidx j hj).1
  rw [Nat.zero_add] at hj0
  rw [hdp, hj0]
  exact pointPayload_conversion (nd.getD j default) (resolveParams lulc).2
    area (drawA g j) (drawB g j) (drawN g j)

/-- Witness for C6 at a concrete input: the single data point of a
one-measurement estimate satisfies the carbon and CO2 conversion chain. -/
theorem conversion_chain_witness :
    callSucceeded (estimate_carbon_sequestration onePointSeries 100 0 1
      PyVal.none zeroStream) = true
    ∧ (((reportOf (estimate_carbon_sequestration onePointSeries 100 0 1
        PyVal.none zeroStream)).getD default).data_points.getD 0
          default).carbon_tonnes_ha
      = pyRound 4 (pointMedian (onePointSeries.getD 0 default)
          (resolveParams PyVal.none).2 (drawA zeroStream 0)
          (drawB zeroStream 0) (drawN zeroStream 0) * CARBON_FRACTION)
    ∧ (((reportOf (estimate_carbon_sequestration onePointSeries 100 0 1
        PyVal.none zeroStream)).getD default).data_points.getD 0
          default).co2_tonnes_ha
      = pyRound 4 (pointMedian (onePointSeries.getD 0 default)
          (resolveParams PyVal.none).2 (drawA zeroStream 0)
          (drawB zeroStream 0) (drawN zeroStream 0) * CARBON_FRACTION
          * CO2_TO_CARBON_RATIO) := by
  obtain ⟨acc, hacc, hest⟩ := estimate_ok_shape onePointSeries 100 0 1
    PyVal.none zeroStream (by simp [onePointSeries]) (by norm_num)
    (by norm_num)
    (by
      intro p hp
      simp only [onePointSeries, List.mem_singleton] at hp
      subst hp
      exact ⟨by norm_num, by norm_num⟩)
  have hok : estimate_carbon_sequestration onePointSeries 100 0 1
      PyVal.none zeroStream = .ok
        { start_date := 0, end_date := 1, area_ha := 100,
          data_points := acc.points,
          statistics := buildStatistics onePointSeries 100 acc,
          metadata := buildMetadata PyVal.none
            (resolveParams PyVal.none).1 (resolveParams PyVal.none).2 } := by
    unfold estimate_carbon_sequestration
    rw [hest]
  have hchain := conversion_chain onePointSeries 100 0 1 PyVal.none
    zeroStream hok
  have hone : (0 : ℕ) < onePointSeries.length := by simp [onePointSeries]
  refine ⟨?_, ?_, ?_⟩
  · rw [hok]
    rfl
  · rw [hok]
    exact (hchain.2 0 hone).2.1
  · rw [hok]
    exact (hchain.2 0 hone).2.2.1

theorem pointMC_mem_nonneg (p : NdviPoint) (params : AlloParams)
    (za zb zn : ℕ → ℝ) : ∀ x ∈ pointMC p params za zb zn, 0 ≤ x := by
  unfold pointMC
  exact sim_mem_nonneg p.ndvi (p.ndvi_std.getD DEFAULT_NDVI_STD) params
    MONTE_CARLO_ITERATIONS za zb zn

theorem metrics_fields (xs : List ℝ) :
    (_calculate_confidence_metrics xs).median = percentile xs 50
    ∧ (_calculate_confidence_metrics xs).ci_lower = percentile xs (5 / 2)
    ∧ (_calculate_confidence_metrics xs).ci_upper = percentile xs (195 / 2)
    ∧ (_calculate_confidence_metrics xs).std_dev = npStd xs := by
  unfold _calculate_confidence_metrics
  exact ⟨rfl, rfl, rfl, rfl⟩

theorem pointPayload_acc_fields (p : NdviPoint) (params : AlloParams)
    (area : ℝ) (za zb zn : ℕ → ℝ) :
    (pointPayload p params area za zb zn).2.1
      = max 0 (pointMedian p params za zb zn)
    ∧ (pointPayload p params area za zb zn).2.2.1
      = max 0 (pointMedian p params za zb zn) * CARBON_FRACTION
    ∧ (pointPayload p params area za zb zn).1.ci_lower
      = pyRound 4 (percentile (pointMC p params za zb zn) (5 / 2))
    ∧ (pointPayload p params area za zb zn).1.ci_upper
      = pyRound 4 (percentile (pointMC p params za zb zn) (195 / 2))
    ∧ (pointPayload p params area za zb zn).1.std_dev
      = pyRound 4 (npStd (pointMC p params za zb zn)) := by
  unfold pointPayload pointMedian
  dsimp only
  rw [(metrics_fields (pointMC p params za zb zn)).2.1,
    (metrics_fields (pointMC p params za zb zn)).2.2.1,
    (metrics_fields (pointMC p params za zb zn)).2.2.2]
  exact ⟨rfl, rfl, rfl, rfl, rfl⟩

/-- C7: in every successful report, every derived biomass, carbon and CO2
value — per-area and total for each point, the confidence interval
bounds, and the aggregate statistics — is non-negative: negative raw model
output is floored before conversion and the floor is applied again to the
median. -/
theorem report_nonneg (nd : List NdviPoint) (area : ℝ) (sd ed : ℤ)
    (lulc : PyVal) (g : ℕ → ℝ) {r : Report}
    (h : estimate_carbon_sequestration nd area sd ed lulc g = .ok r) :
    (∀ dp ∈ r.data_points,
      0 ≤ dp.agb_tonnes_ha ∧ 0 ≤ dp.agb_total_tonnes
      ∧ 0 ≤ dp.carbon_tonnes_ha ∧ 0 ≤ dp.carbon_total_tonnes
      ∧ 0 ≤ dp.co2_tonnes_ha ∧ 0 ≤ dp.co2_total_tonnes
      ∧ 0 ≤ dp.ci_lower ∧ 0 ≤ dp.ci_upper ∧ 0 ≤ dp.std_dev)
    ∧ 0 ≤ r.statistics.mean_agb_tonnes_ha
    ∧ 0 ≤ r.statistics.total_agb_tonnes
    ∧ 0 ≤ r.statistics.mean_carbon_tonnes_ha
    ∧ 0 ≤ r.statistics.total_carbon_tonnes
    ∧ 0 ≤ r.statistics.total_co2_tonnes := by
  obtain ⟨harea, c, acc, hproc, hdp, hstats⟩ := estimate_ok_inv h
  obtain ⟨-, hlp, hla, hlc, hidx⟩ := processPoints_ok_spec hproc
  have harea0 : (0 : ℝ) ≤ area := le_of_lt harea
  have hCF : (0 : ℝ) ≤ CARBON_FRACTION := by norm_num [CARBON_FRACTION]
  have hRT : (0 : ℝ) ≤ CO2_TO_CARBON_RATIO := by
    norm_num [ CO2_TO_CARBON_RATIO]
  have hagb : ∀ v ∈ acc.agb_values, 0 ≤ v := by
    intro v hv
    obtain ⟨j, hj, hvj⟩ := List.mem_iff_getElem.1 hv
    have hj2 : j < nd.length := hla ▸ hj
    have hval := (hidx j hj2).2.1
    rw [Nat.zero_add] at hval
    rw [List.getD_eq_getElem _ _ hj, hvj] at hval
    rw [hval, (pointPayload_acc_fields _ _ _ _ _ _).1]
    exact le_max_left 0 _
  have hcarbon : ∀ v ∈ acc.carbon_values, 0 ≤ v := by
    intro v hv
    obtain ⟨j, hj, hvj⟩ := List.mem_iff_getElem.1 hv
    have hj2 : j < nd.length := hlc ▸ hj
    have hval := (hidx j hj2).2.2
    rw [Nat.zero_add] at hval
    rw [List.getD_eq_getElem _ _ hj, hvj] at hval
    rw [hval, (pointPayload_acc_fields _ _ _ _ _ _).2.1]
    exact mul_nonneg (le_max_left 0 _) hCF
  refine ⟨?_, ?_, ?_, ?_, ?_, ?_⟩
  · intro dp hdpm
    rw [hdp] at hdpm
    obtain ⟨j, hj, hdpj⟩ := List.mem_iff_getElem.1 hdpm
    have hj2 : j < nd.length := hlp ▸ hj
    have hval := (hidx j hj2).1
    rw [Nat.zero_add] at hval
    rw [List.getD_eq_getElem _ _ hj, hdpj] at hval
    rw [hval]
    obtain ⟨h1, h2, h3, h4, h5, h6⟩ := pointPayload_conversion
      (nd.getD j default) (resolveParams lulc).2 area (drawA g j)
      (drawB g j) (drawN g j)
    obtain ⟨-, -, hc1, hc2, hc3⟩ := pointPayload_acc_fields
      (nd.getD j default) (resolveParams lulc).2 area (drawA g j)
      (drawB g j) (drawN g j)
    have hmed := pointMedian_nonneg (nd.getD j default)
      (resolveParams lulc).2 (drawA g j) (drawB g j) (drawN g j)
    have hmc := pointMC_mem_nonneg (nd.getD j default)
      (resolveParams lulc).2 (drawA g j) (drawB g j) (drawN g j)
    refine ⟨?_, ?_, ?_, ?_, ?_, ?_, ?_, ?_, ?_⟩
    · rw [h1]
      exact pyRound_nonneg hmed 4
    · rw [h4]
      exact pyRound_nonneg (mul_nonneg hmed harea0) 4
    · rw [h2]
      exact pyRound_nonneg (mul_nonneg hmed hCF) 4
    · rw [h5]
      exact pyRound_nonneg (mul_nonneg (mul_nonneg hmed hCF) harea0) 4
    · rw [h3]
      exact pyRound_nonneg (mul_nonneg (mul_nonneg hmed hCF) hRT) 4
    · rw [h6]
      exact pyRound_nonneg
        (mul_nonneg (mul_nonneg (mul_nonneg hmed hCF) hRT) harea0) 4
    · rw [hc1]
      exact pyRound_nonneg (percentile_nonneg hmc (5 / 2)) 4
    · rw [hc2]
      exact pyRound_nonneg (percentile_nonneg hmc (195 / 2)) 4
    · rw [hc3]
      exact pyRound_nonneg (npStd_nonneg _) 4
  all_goals rw [hstats]
  all_goals unfold buildStatistics
  all_goals dsimp only
  · exact pyRound_nonneg (div_nonneg (List.sum_nonneg hagb)
      (Nat.cast_nonneg _)) 4
  · exact pyRound_nonneg (mul_nonneg (div_nonneg (List.sum_nonneg hagb)
      (Nat.cast_nonneg _)) harea0) 4
  · exact pyRound_nonneg (div_nonneg (List.sum_nonneg hcarbon)
      (Nat.cast_nonneg _)) 4
  · exact pyRound_nonneg (mul_nonneg (div_nonneg (List.sum_nonneg hcarbon)
      (Nat.cast_nonneg _)) harea0) 4
  · exact pyRound_nonneg (mul_nonneg (mul_nonneg (div_nonneg
      (List.sum_nonneg hcarbon) (Nat.cast_nonneg _)) harea0) hRT) 4

/-- Witness for C7 at a concrete input: the single-point estimate succeeds
and its total CO2 statistic and per-point carbon figure are
non-negative. -/
theorem report_nonneg_witness :
    callSucceeded (estimate_carbon_sequestration onePointSeries 100 0 1
      PyVal.none zeroStream) = true
    ∧ 0 ≤ ((reportOf (estimate_carbon_sequestration onePointSeries 100 0 1
        PyVal.none zeroStream)).getD default).statistics.total_co2_tonnes
    ∧ 0 ≤ (((reportOf (estimate_carbon_sequestration onePointSeries 100 0 1
        PyVal.none zeroStream)).getD default).data_points.getD 0
          default).carbon_tonnes_ha := by
  obtain ⟨acc, hacc, hest⟩ := estimate_ok_shape onePointSeries 100 0 1
    PyVal.none zeroStream (by simp [onePointSeries]) (by norm_num)
    (by norm_num)
    (by
      intro p hp
      simp only [onePointSeries, List.mem_singleton] at hp
      subst hp
      exact ⟨by norm_num, by norm_num⟩)
  obtain ⟨-, hlp, -, -, -⟩ := processPoints_ok_spec hacc
  have hok : estimate_carbon_sequestration onePointSeries 100 0 1
      PyVal.none zeroStream = .ok
        { start_date := 0, end_date := 1, area_ha := 100,
          data_points := acc.points,
          statistics := buildStatistics onePointSeries 100 acc,
          metadata := buildMetadata PyVal.none
            (resolveParams PyVal.none).1 (resolveParams PyVal.none).2 } := by
    unfold estimate_carbon_sequestration
    rw [hest]
  have hnn := report_nonneg onePointSeries 100 0 1 PyVal.none zeroStream hok
  refine ⟨by rw [hok]; rfl, ?_, ?_⟩
  · rw [hok]
    exact hnn.2.2.2.2.2
  · rw [hok]
    have hlen : 0 < acc.points.length := by
      rw [hlp]
      simp [onePointSeries]
    have hmem : acc.points.getD 0 default ∈ acc.points := by
      rw [List.getD_eq_getElem _ _ hlen]
      exact List.getElem_mem hlen
    exact (hnn.1 _ hmem).2.2.1
